import Mathlib

/-!
# ChatBot.jsx: the message / request lifecycle

A shallow embedding of `client/src/components/ChatBot.jsx`.  The component keeps
four pieces of React state (`isOpen`, `messages`, `input`, `isLoading`) and has
one handler with logic, `sendMessage`.  The handler is an `async` function: it
runs synchronously up to `await model.generateContent(prompt)` and its
continuation runs when that promise settles.  Both halves are modelled, and
`sendMessage` is their composition when the handler's render is up to date and
nothing happens in between.

Modelling conventions.
* A handler reads the values of `input` and `isLoading` that its render
  captured; a setter changes the cell, not what the handler already holds.
  `setMessages(prev => ...)` is a functional update and is applied to the
  cell as it is at that moment.  The event system below keeps the cells and
  the values of the last render apart, and rendering is an event of its own.
* A JavaScript string is a Lean `String`.
* `import.meta.env.VITE_GEMINI_API_KEY` is `Option String` (`none` is
  `undefined`).
* The Gemini SDK chain (`new GoogleGenerativeAI`, `getGenerativeModel`,
  `generateContent`, `result.response`, `response.text()`) is one external
  operation whose outcome is either a text or a thrown value.
* A thrown value is modelled by what the `catch` block can observe of it: it is
  `null`/`undefined`, or reading `.message` on it gives nothing, a string, or a
  number/boolean.  Messages that are arrays or other objects are not modelled.
* What the handler does outside the four cells is recorded in the result of a
  run: `e.preventDefault()`, the request handed to the SDK, and the argument of
  `console.error`.
-/

namespace ChatBot

/-! ## Data model -/

/-- The `role` field of a chat message. -/
inductive Role where
  | user
  | assistant
  deriving DecidableEq, Repr

/-- One entry of `messages`. -/
structure Message where
  role : Role
  content : String
  deriving DecidableEq, Repr

/-- The four `useState` cells of the component. -/
structure SessionState where
  isOpen : Bool
  messages : List Message
  input : String
  isLoading : Bool
  deriving DecidableEq, Repr

/-- The initial values passed to `useState` (lines 6-14). -/
def initialState : SessionState :=
  { isOpen := false
    messages :=
      [{ role := Role.assistant
         content := "Hi! I\x27m your resume building assistant. How can I help you today?" }]
    input := ""
    isLoading := false }

/-- State setter `setIsOpen`. -/
def setIsOpen (v : Bool) (s : SessionState) : SessionState := { s with isOpen := v }

/-- State setter `setMessages`, in its functional-update form. -/
def setMessages (f : List Message → List Message) (s : SessionState) : SessionState :=
  { s with messages := f s.messages }

/-- State setter `setInput`. -/
def setInput (v : String) (s : SessionState) : SessionState := { s with input := v }

/-- State setter `setIsLoading`. -/
def setIsLoading (v : Bool) (s : SessionState) : SessionState := { s with isLoading := v }

/-! ## JavaScript string primitives -/

/-- ECMAScript `WhiteSpace` and `LineTerminator` code points, the characters
`String.prototype.trim` strips. -/
def isJsWhiteSpace (c : Char) : Bool :=
  let n := c.toNat
  n == 0x09 || n == 0x0A || n == 0x0B || n == 0x0C || n == 0x0D || n == 0x20 ||
  n == 0xA0 || n == 0x1680 || (0x2000 ≤ n && n ≤ 0x200A) || n == 0x2028 ||
  n == 0x2029 || n == 0x202F || n == 0x205F || n == 0x3000 || n == 0xFEFF

/-- Characters left after removing leading and trailing white space. -/
def trimChars (cs : List Char) : List Char :=
  ((cs.dropWhile isJsWhiteSpace).reverse.dropWhile isJsWhiteSpace).reverse

/-- JavaScript `s.trim()`. -/
def jsTrim (s : String) : String := ⟨trimChars s.data⟩

/-- JavaScript `s.includes(pat)`: `pat` occurs in `s` as a contiguous run. -/
def jsIncludes (s pat : String) : Bool :=
  s.data.tails.any (fun t => pat.data.isPrefixOf t)

/-! ## Values the `catch` block can receive -/

/-- What reading `error.message` gives. -/
inductive JsMessage where
  /-- `undefined` or `null`: the `?.` chain short-circuits. -/
  | absent
  /-- A string. -/
  | str (s : String)
  /-- A number or boolean: not nullish, and without an `includes` method. -/
  | nonString
  deriving DecidableEq, Repr

/-- A value thrown in the `try` block, or the rejection reason of an awaited
promise. -/
inductive Thrown where
  /-- The values `null` and `undefined`: reading a property of them throws. -/
  | nullish
  /-- Any other value; `message` is what `error.message` evaluates to. -/
  | value (message : JsMessage)
  deriving DecidableEq, Repr

/-- A `TypeError` raised while running the `catch` block. -/
inductive JsTypeError where
  /-- Reading `.message` of `null` or `undefined`. -/
  | readPropertyOfNullish
  /-- Calling `error.message.includes` when it is not a function. -/
  | notAFunction
  deriving DecidableEq, Repr

/-- The request handed to the SDK: the key given to `new GoogleGenerativeAI`,
the model name given to `getGenerativeModel`, the prompt given to
`generateContent`. -/
structure Call where
  apiKey : String
  model : String
  prompt : String
  deriving DecidableEq, Repr

/-- What the external call produced: `response.text()` or a thrown value. -/
abbrev Outcome := Except Thrown String

/-- The surroundings of the component: the injected credential and the
behaviour of the external generation capability. -/
structure Env where
  apiKey : Option String
  generate : Call → Outcome

/-! ## `sendMessage` -/

/-- Text before `${userMessage}` in the template literal (lines 48-49). -/
def promptHead : String :=
  "You are a helpful assistant for a resume builder application. \n      The user is asking: \""

/-- Text after `${userMessage}` in the template literal (lines 49-52). -/
def promptTail : String :=
  "\"\n      \n      Please provide a concise, helpful response related to resume building, job applications, or career advice. \n      Keep your response under 150 words."

/-- The template literal bound to `prompt`. -/
def prompt (userMessage : String) : String :=
  promptHead ++ userMessage ++ promptTail

/-- The `try` block up to the call of `generateContent` (lines 37-54): either
the credential check throws, or a request is handed to the SDK. -/
def tryBlock (apiKey : Option String) (userMessage : String) : Except Thrown Call :=
  match apiKey with
  | none => Except.error (Thrown.value (JsMessage.str "API key not configured"))
  | some k =>
    if k == "" || k == "your_gemini_api_key_here" then
      Except.error (Thrown.value (JsMessage.str "API key not configured"))
    else
      Except.ok { apiKey := k, model := "gemini-2.5-pro", prompt := prompt userMessage }

/-- The `catch` block up to `setMessages` (lines 62-72): the text bound to
`errorMessage`, or the `TypeError` that evaluating the conditions raises. -/
def catchBlock (error : Thrown) : Except JsTypeError String :=
  let errorMessage := "Sorry, I encountered an error. "
  match error with
  | Thrown.nullish => Except.error JsTypeError.readPropertyOfNullish
  | Thrown.value JsMessage.nonString => Except.error JsTypeError.notAFunction
  | Thrown.value JsMessage.absent =>
    Except.ok (errorMessage ++ ("Error: " ++ "Unknown error" ++ ". Please try again."))
  | Thrown.value (JsMessage.str m) =>
    if m = "API key not configured" then
      Except.ok (errorMessage ++
        "Please add your Gemini API key to the .env file as VITE_GEMINI_API_KEY")
    else if jsIncludes m "API_KEY_INVALID" then
      Except.ok (errorMessage ++
        "Your API key appears to be invalid. Please check your Gemini API key.")
    else if jsIncludes m "quota" then
      Except.ok (errorMessage ++ "API quota exceeded. Please check your Gemini API usage.")
    else
      Except.ok (errorMessage ++
        ("Error: " ++ (if m = "" then "Unknown error" else m) ++ ". Please try again."))

/-- How the promise returned by `sendMessage` settles. -/
inductive Completion where
  /-- The promise is fulfilled. -/
  | normal
  /-- The promise is rejected with a `TypeError` raised inside `catch`. -/
  | threw (e : JsTypeError)
  deriving DecidableEq, Repr

/-- Lines 56-80 applied to the state current when the `try` block leaves its
last statement: the assistant entry on success, the `catch` block on a thrown
value, and `finally` in every case. -/
def settle (s : SessionState) (r : Outcome) : SessionState × Completion :=
  match r with
  | Except.ok text =>
    (setIsLoading false
      (setMessages (fun prev => prev ++ [{ role := Role.assistant, content := text }]) s),
     Completion.normal)
  | Except.error error =>
    match catchBlock error with
    | Except.ok errorMessage =>
      (setIsLoading false
        (setMessages
          (fun prev => prev ++ [{ role := Role.assistant, content := errorMessage }]) s),
       Completion.normal)
    | Except.error e => (setIsLoading false s, Completion.threw e)

/-- Line 61: the values `console.error` is called with.  The `catch` block is
entered exactly when the `try` block threw, and the call is its first
statement. -/
def consoleError (r : Outcome) : List Thrown :=
  match r with
  | Except.ok _ => []
  | Except.error error => [error]

/-- The guard of line 27: `!input.trim() || isLoading`, on the values the
handler captured. -/
def rejects (s : SessionState) : Bool :=
  jsTrim s.input == "" || s.isLoading

/-- Lines 29-34 run by the handler of the render `rendered` on the cells
`current`: `userMessage` is read from the captured `input`, the three setters
act on the cells. -/
def acceptOn (rendered current : SessionState) : SessionState :=
  let userMessage := jsTrim rendered.input
  setIsLoading true
    (setMessages (fun prev => prev ++ [{ role := Role.user, content := userMessage }])
      (setInput "" current))

/-- Lines 29-34 when the cells hold what the handler captured. -/
def accept (s : SessionState) : SessionState := acceptOn s s

/-- Where the synchronous part of `sendMessage` stops. -/
inductive Started where
  /-- The guard returned. -/
  | rejected
  /-- The credential check threw `error`; `catch` and `finally` ran without any
  `await`. -/
  | settled (s : SessionState) (c : Completion) (error : Thrown)
  /-- The request was handed to the SDK and the handler awaits it. -/
  | pending (s : SessionState) (call : Call)
  deriving DecidableEq, Repr

/-- The synchronous part of `sendMessage`, up to the first `await`, run by the
handler of the render `rendered` on the cells `current`. -/
def sendMessageStartOn (apiKey : Option String) (rendered current : SessionState) : Started :=
  if rejects rendered then Started.rejected
  else
    match tryBlock apiKey (jsTrim rendered.input) with
    | Except.error error =>
      let r := settle (acceptOn rendered current) (Except.error error)
      Started.settled r.1 r.2 error
    | Except.ok call => Started.pending (acceptOn rendered current) call

/-- The synchronous part of `sendMessage` when the cells hold what the handler
captured. -/
def sendMessageStart (apiKey : Option String) (s : SessionState) : Started :=
  sendMessageStartOn apiKey s s

/-- Result of one complete run of `sendMessage`: the cells afterwards and
everything the handler did outside them. -/
structure Run where
  state : SessionState
  calls : List Call
  completion : Completion
  /-- Whether `e.preventDefault()` was called (line 26). -/
  defaultPrevented : Bool
  /-- The values passed to `console.error` (line 61), in order. -/
  logged : List Thrown
  deriving DecidableEq, Repr

/-- One run of `sendMessage` from the submit event to the settlement of the
promise it returns, by a handler whose render is up to date and with no other
event in between. -/
def sendMessage (env : Env) (s : SessionState) : Run :=
  match sendMessageStart env.apiKey s with
  | Started.rejected =>
    { state := s, calls := [], completion := Completion.normal
      defaultPrevented := true, logged := [] }
  | Started.settled s1 c error =>
    { state := s1, calls := [], completion := c
      defaultPrevented := true, logged := consoleError (Except.error error) }
  | Started.pending s1 call =>
    let r := settle s1 (env.generate call)
    { state := r.1, calls := [call], completion := r.2
      defaultPrevented := true, logged := consoleError (env.generate call) }

/-! ## The panel as an event-driven system -/

/-- The mounted component between two events: the cells, the values captured by
the handlers of the last render, and the requests whose continuation has not
run yet. -/
structure Panel where
  ui : SessionState
  rendered : SessionState
  inFlight : List Call
  deriving DecidableEq, Repr

/-- The freshly mounted component, just rendered. -/
def initialPanel : Panel :=
  { ui := initialState, rendered := initialState, inFlight := [] }

/-- Things that happen to the mounted component. -/
inductive Event where
  /-- The component function runs again: the handlers capture the cells. -/
  | render
  /-- Click on the chat icon: `setIsOpen(true)`. -/
  | openChat
  /-- Click on the close button: `setIsOpen(false)`. -/
  | closeChat
  /-- The `onChange` of the text field: `setInput(e.target.value)`. -/
  | change (text : String)
  /-- The `onSubmit` of the form: `sendMessage`. -/
  | submit
  /-- The oldest awaited request settles with the given outcome. -/
  | settled (r : Outcome)

/-- One event handled. -/
def step (apiKey : Option String) (p : Panel) : Event → Panel
  | Event.render => { p with rendered := p.ui }
  | Event.openChat => { p with ui := setIsOpen true p.ui }
  | Event.closeChat => { p with ui := setIsOpen false p.ui }
  | Event.change text => { p with ui := setInput text p.ui }
  | Event.submit =>
    match sendMessageStartOn apiKey p.rendered p.ui with
    | Started.rejected => p
    | Started.settled s _ _ => { p with ui := s }
    | Started.pending s call => { p with ui := s, inFlight := p.inFlight ++ [call] }
  | Event.settled r =>
    match p.inFlight with
    | [] => p
    | _ :: rest => { p with ui := (settle p.ui r).1, inFlight := rest }

/-- A sequence of events handled in order. -/
def runEvents (apiKey : Option String) (p : Panel) (evs : List Event) : Panel :=
  evs.foldl (step apiKey) p

/-- The event sequence with a render put right after every submit: the
component re-renders before anything else is handled. -/
def renderAfterSubmit : List Event → List Event
  | [] => []
  | Event.submit :: rest => Event.submit :: Event.render :: renderAfterSubmit rest
  | ev :: rest => ev :: renderAfterSubmit rest

/-! ## Vocabulary of the statements -/

/-- The run of `sendMessage` from `s` appended the user entry and then one
assistant entry with the given text, and nothing else. -/
def Appends (env : Env) (s : SessionState) (text : String) : Prop :=
  (sendMessage env s).state.messages =
    s.messages ++
      [{ role := Role.user, content := jsTrim s.input },
       { role := Role.assistant, content := text }]

/-- The error text as the specification words the policy: the credential is
looked at first, then the two markers in the raw error text, and every other
failure gets the raw error text between `Error: ` and `. Please try again.`. -/
def claimedErrorText (apiKey : Option String) (rawErrorText : String) : String :=
  if apiKey = none ∨ apiKey = some "" ∨ apiKey = some "your_gemini_api_key_here" then
    "Sorry, I encountered an error. Please add your Gemini API key to the .env file as VITE_GEMINI_API_KEY"
  else if jsIncludes rawErrorText "API_KEY_INVALID" then
    "Sorry, I encountered an error. Your API key appears to be invalid. Please check your Gemini API key."
  else if jsIncludes rawErrorText "quota" then
    "Sorry, I encountered an error. API quota exceeded. Please check your Gemini API usage."
  else
    "Sorry, I encountered an error. Error: " ++ rawErrorText ++ ". Please try again."

/-- The flag and the list of awaited requests agree: either the flag is raised
and one request is awaited, or it is lowered and none is. -/
def Coherent (p : Panel) : Prop :=
  (p.ui.isLoading = true ∧ p.inFlight.length = 1) ∨ (p.ui.isLoading = false ∧ p.inFlight = [])

/-- The handlers of the last render have seen the raised flag. -/
def SeesLoading (p : Panel) : Prop :=
  p.ui.isLoading = true → p.rendered.isLoading = true

/-! ## Basic facts about the guard and the two halves -/

theorem rejects_of_trim_empty (s : SessionState) (h : jsTrim s.input = "") :
    rejects s = true := by
  simp [rejects, h]

theorem rejects_of_loading (s : SessionState) (h : s.isLoading = true) :
    rejects s = true := by
  simp [rejects, h]

theorem rejects_eq_false (s : SessionState) (hinput : jsTrim s.input ≠ "")
    (hload : s.isLoading = false) : rejects s = false := by
  simp [rejects, hinput, hload]

theorem sendMessageStartOn_of_rejects (apiKey : Option String) (v c : SessionState)
    (h : rejects v = true) : sendMessageStartOn apiKey v c = Started.rejected := by
  simp [sendMessageStartOn, h]

theorem sendMessageStartOn_of_call (apiKey : Option String) (v c : SessionState) (call : Call)
    (h : rejects v = false) (hcall : tryBlock apiKey (jsTrim v.input) = Except.ok call) :
    sendMessageStartOn apiKey v c = Started.pending (acceptOn v c) call := by
  simp [sendMessageStartOn, h, hcall]

theorem sendMessageStartOn_of_throw (apiKey : Option String) (v c : SessionState)
    (error : Thrown) (h : rejects v = false)
    (hcall : tryBlock apiKey (jsTrim v.input) = Except.error error) :
    sendMessageStartOn apiKey v c =
      Started.settled (settle (acceptOn v c) (Except.error error)).1
        (settle (acceptOn v c) (Except.error error)).2 error := by
  simp [sendMessageStartOn, h, hcall]

theorem sendMessageStart_of_rejects (apiKey : Option String) (s : SessionState)
    (h : rejects s = true) : sendMessageStart apiKey s = Started.rejected :=
  sendMessageStartOn_of_rejects apiKey s s h

theorem sendMessage_of_rejects (env : Env) (s : SessionState) (h : rejects s = true) :
    sendMessage env s =
      { state := s, calls := [], completion := Completion.normal
        defaultPrevented := true, logged := [] } := by
  simp [sendMessage, sendMessageStart_of_rejects env.apiKey s h]

theorem sendMessageStart_of_call (apiKey : Option String) (s : SessionState) (call : Call)
    (h : rejects s = false) (hcall : tryBlock apiKey (jsTrim s.input) = Except.ok call) :
    sendMessageStart apiKey s = Started.pending (accept s) call :=
  sendMessageStartOn_of_call apiKey s s call h hcall

theorem sendMessageStart_of_throw (apiKey : Option String) (s : SessionState) (error : Thrown)
    (h : rejects s = false) (hcall : tryBlock apiKey (jsTrim s.input) = Except.error error) :
    sendMessageStart apiKey s =
      Started.settled (settle (accept s) (Except.error error)).1
        (settle (accept s) (Except.error error)).2 error :=
  sendMessageStartOn_of_throw apiKey s s error h hcall

theorem tryBlock_of_configured (k userMessage : String) (h1 : k ≠ "")
    (h2 : k ≠ "your_gemini_api_key_here") :
    tryBlock (some k) userMessage =
      Except.ok { apiKey := k, model := "gemini-2.5-pro", prompt := prompt userMessage } := by
  simp [tryBlock, h1, h2]

theorem tryBlock_of_missing (apiKey : Option String) (userMessage : String)
    (h : apiKey = none ∨ apiKey = some "" ∨ apiKey = some "your_gemini_api_key_here") :
    tryBlock apiKey userMessage =
      Except.error (Thrown.value (JsMessage.str "API key not configured")) := by
  rcases h with h | h | h <;> subst h <;> simp [tryBlock]

theorem settle_ok (s : SessionState) (text : String) :
    settle s (Except.ok text) =
      (setIsLoading false
        (setMessages (fun prev => prev ++ [{ role := Role.assistant, content := text }]) s),
       Completion.normal) := rfl

theorem settle_caught (s : SessionState) (error : Thrown) (errorMessage : String)
    (h : catchBlock error = Except.ok errorMessage) :
    settle s (Except.error error) =
      (setIsLoading false
        (setMessages
          (fun prev => prev ++ [{ role := Role.assistant, content := errorMessage }]) s),
       Completion.normal) := by
  simp [settle, h]

theorem settle_uncaught (s : SessionState) (error : Thrown) (e : JsTypeError)
    (h : catchBlock error = Except.error e) :
    settle s (Except.error error) = (setIsLoading false s, Completion.threw e) := by
  simp [settle, h]

theorem settle_isLoading (s : SessionState) (r : Outcome) :
    (settle s r).1.isLoading = false := by
  cases r with
  | ok text => rfl
  | error error =>
    cases h : catchBlock error with
    | ok m => rw [settle_caught s error m h]; rfl
    | error e => rw [settle_uncaught s error e h]; rfl

theorem settle_messages (s : SessionState) (r : Outcome) :
    ∃ added, (settle s r).1.messages = s.messages ++ added := by
  cases r with
  | ok text => exact ⟨_, rfl⟩
  | error error =>
    cases h : catchBlock error with
    | ok m => rw [settle_caught s error m h]; exact ⟨_, rfl⟩
    | error e => rw [settle_uncaught s error e h]; exact ⟨[], by simp [setIsLoading]⟩

theorem acceptOn_messages (v c : SessionState) :
    (acceptOn v c).messages = c.messages ++ [{ role := Role.user, content := jsTrim v.input }] :=
  rfl

theorem acceptOn_isLoading (v c : SessionState) : (acceptOn v c).isLoading = true := rfl

theorem accept_messages (s : SessionState) :
    (accept s).messages = s.messages ++ [{ role := Role.user, content := jsTrim s.input }] := rfl

theorem sendMessageStartOn_cases (apiKey : Option String) (v c : SessionState) :
    sendMessageStartOn apiKey v c = Started.rejected ∨
      (v.isLoading = false ∧ ∃ error,
        sendMessageStartOn apiKey v c =
          Started.settled (settle (acceptOn v c) (Except.error error)).1
            (settle (acceptOn v c) (Except.error error)).2 error) ∨
      (v.isLoading = false ∧ ∃ call,
        tryBlock apiKey (jsTrim v.input) = Except.ok call ∧
          sendMessageStartOn apiKey v c = Started.pending (acceptOn v c) call) := by
  cases hr : rejects v with
  | true => exact Or.inl (sendMessageStartOn_of_rejects apiKey v c hr)
  | false =>
    have hl : v.isLoading = false := by
      simp [rejects] at hr
      exact hr.2
    cases hc : tryBlock apiKey (jsTrim v.input) with
    | error error =>
      exact Or.inr (Or.inl ⟨hl, error, sendMessageStartOn_of_throw apiKey v c error hr hc⟩)
    | ok call =>
      exact Or.inr (Or.inr ⟨hl, call, rfl, sendMessageStartOn_of_call apiKey v c call hr hc⟩)

theorem initialPanel_coherent : Coherent initialPanel := Or.inr ⟨rfl, rfl⟩

theorem initialPanel_seesLoading : SeesLoading initialPanel := fun h => h

theorem step_submit_of_loading (apiKey : Option String) (p : Panel)
    (h : p.rendered.isLoading = true) : step apiKey p Event.submit = p := by
  simp [step, sendMessageStartOn_of_rejects apiKey p.rendered p.ui (rejects_of_loading _ h)]

theorem step_submit_coherent (apiKey : Option String) (p : Panel) (h : Coherent p)
    (hs : SeesLoading p) : Coherent (step apiKey p Event.submit) := by
  rcases sendMessageStartOn_cases apiKey p.rendered p.ui with
    hst | ⟨hl, error, hst⟩ | ⟨hl, call, _, hst⟩
  · simp only [step, hst]
    exact h
  · rcases h with ⟨h1, _⟩ | ⟨_, h2⟩
    · rw [hs h1] at hl
      cases hl
    · simp only [step, hst]
      exact Or.inr ⟨settle_isLoading _ _, h2⟩
  · rcases h with ⟨h1, _⟩ | ⟨_, h2⟩
    · rw [hs h1] at hl
      cases hl
    · simp only [step, hst]
      exact Or.inl ⟨acceptOn_isLoading _ _, by simp [h2]⟩

theorem step_render (apiKey : Option String) (p : Panel) (h : Coherent p) :
    Coherent (step apiKey p Event.render) ∧ SeesLoading (step apiKey p Event.render) :=
  ⟨h, fun hl => hl⟩

theorem step_settled (apiKey : Option String) (p : Panel) (r : Outcome) (h : Coherent p)
    (hs : SeesLoading p) :
    Coherent (step apiKey p (Event.settled r)) ∧
      SeesLoading (step apiKey p (Event.settled r)) := by
  rcases h with ⟨h1, h2⟩ | ⟨h1, h2⟩
  · match hq : p.inFlight, h2 with
    | [c], _ =>
      simp only [step, hq]
      refine ⟨Or.inr ⟨settle_isLoading _ _, rfl⟩, ?_⟩
      intro hl
      have := settle_isLoading p.ui r
      simp only [SeesLoading] at *
      rw [this] at hl
      cases hl
  · simp only [step, h2]
    exact ⟨Or.inr ⟨h1, h2⟩, hs⟩

theorem runEvents_cons (apiKey : Option String) (p : Panel) (ev : Event) (rest : List Event) :
    runEvents apiKey p (ev :: rest) = runEvents apiKey (step apiKey p ev) rest := rfl

/-- When a render follows every submit, the flag and the awaited requests stay
in agreement along the whole run. -/
theorem runEvents_coherent (apiKey : Option String) (evs : List Event) (p : Panel)
    (h : Coherent p) (hs : SeesLoading p) :
    Coherent (runEvents apiKey p (renderAfterSubmit evs)) := by
  induction evs generalizing p with
  | nil => exact h
  | cons ev rest ih =>
    cases ev with
    | submit =>
      simp only [renderAfterSubmit, runEvents_cons]
      have h1 := step_submit_coherent apiKey p h hs
      have h2 := step_render apiKey (step apiKey p Event.submit) h1
      exact ih _ h2.1 h2.2
    | render =>
      simp only [renderAfterSubmit, runEvents_cons]
      have h2 := step_render apiKey p h
      exact ih _ h2.1 h2.2
    | openChat =>
      simp only [renderAfterSubmit, runEvents_cons]
      exact ih _ h hs
    | closeChat =>
      simp only [renderAfterSubmit, runEvents_cons]
      exact ih _ h hs
    | change text =>
      simp only [renderAfterSubmit, runEvents_cons]
      exact ih _ h hs
    | settled r =>
      simp only [renderAfterSubmit, runEvents_cons]
      have h2 := step_settled apiKey p r h hs
      exact ih _ h2.1 h2.2

theorem step_messages (apiKey : Option String) (p : Panel) (ev : Event) :
    ∃ added, (step apiKey p ev).ui.messages = p.ui.messages ++ added := by
  cases ev with
  | render => exact ⟨[], by simp [step]⟩
  | openChat => exact ⟨[], by simp [step, setIsOpen]⟩
  | closeChat => exact ⟨[], by simp [step, setIsOpen]⟩
  | change text => exact ⟨[], by simp [step, setInput]⟩
  | submit =>
    rcases sendMessageStartOn_cases apiKey p.rendered p.ui with
      hs | ⟨_, error, hs⟩ | ⟨_, call, _, hs⟩
    · exact ⟨[], by simp [step, hs]⟩
    · obtain ⟨added, ha⟩ := settle_messages (acceptOn p.rendered p.ui) (Except.error error)
      refine ⟨{ role := Role.user, content := jsTrim p.rendered.input } :: added, ?_⟩
      simp only [step, hs]
      rw [ha, acceptOn_messages]
      simp
    · exact ⟨[{ role := Role.user, content := jsTrim p.rendered.input }], by
        simp only [step, hs]
        exact acceptOn_messages p.rendered p.ui⟩
  | settled r =>
    cases hq : p.inFlight with
    | nil => exact ⟨[], by simp [step, hq]⟩
    | cons c rest =>
      obtain ⟨added, ha⟩ := settle_messages p.ui r
      exact ⟨added, by simp only [step, hq]; exact ha⟩

theorem runEvents_messages (apiKey : Option String) (evs : List Event) (p : Panel) :
    ∃ added, (runEvents apiKey p evs).ui.messages = p.ui.messages ++ added := by
  induction evs generalizing p with
  | nil => exact ⟨[], by simp [runEvents]⟩
  | cons ev rest ih =>
    obtain ⟨a1, h1⟩ := step_messages apiKey p ev
    obtain ⟨a2, h2⟩ := ih (step apiKey p ev)
    refine ⟨a1 ++ a2, ?_⟩
    rw [runEvents_cons, h2, h1, List.append_assoc]

theorem sendMessage_of_call (env : Env) (s : SessionState) (call : Call)
    (hload : s.isLoading = false) (hinput : jsTrim s.input ≠ "")
    (hcall : tryBlock env.apiKey (jsTrim s.input) = Except.ok call) :
    sendMessage env s =
      { state := (settle (accept s) (env.generate call)).1
        calls := [call]
        completion := (settle (accept s) (env.generate call)).2
        defaultPrevented := true
        logged := consoleError (env.generate call) } := by
  simp [sendMessage,
    sendMessageStart_of_call env.apiKey s call (rejects_eq_false s hinput hload) hcall]

theorem sendMessage_of_throw (env : Env) (s : SessionState) (error : Thrown)
    (hload : s.isLoading = false) (hinput : jsTrim s.input ≠ "")
    (hcall : tryBlock env.apiKey (jsTrim s.input) = Except.error error) :
    sendMessage env s =
      { state := (settle (accept s) (Except.error error)).1
        calls := []
        completion := (settle (accept s) (Except.error error)).2
        defaultPrevented := true
        logged := [error] } := by
  simp [sendMessage,
    sendMessageStart_of_throw env.apiKey s error (rejects_eq_false s hinput hload) hcall,
    consoleError]

theorem sendMessage_messages (env : Env) (s : SessionState) :
    ∃ added, (sendMessage env s).state.messages = s.messages ++ added := by
  cases hr : rejects s with
  | true => exact ⟨[], by simp [sendMessage_of_rejects env s hr]⟩
  | false =>
    have hl : s.isLoading = false := by
      simp [rejects] at hr
      exact hr.2
    have hi : jsTrim s.input ≠ "" := by
      simp [rejects] at hr
      exact hr.1
    cases hc : tryBlock env.apiKey (jsTrim s.input) with
    | error error =>
      obtain ⟨added, ha⟩ := settle_messages (accept s) (Except.error error)
      refine ⟨{ role := Role.user, content := jsTrim s.input } :: added, ?_⟩
      rw [sendMessage_of_throw env s error hl hi hc]
      simp only
      rw [ha, accept_messages]
      simp
    | ok call =>
      obtain ⟨added, ha⟩ := settle_messages (accept s) (env.generate call)
      refine ⟨{ role := Role.user, content := jsTrim s.input } :: added, ?_⟩
      rw [sendMessage_of_call env s call hl hi hc]
      simp only
      rw [ha, accept_messages]
      simp

/-- The `finally` block: an accepted run ends with the flag lowered whatever
the credential, the outcome of the call and the fate of the `catch` block. -/
theorem sendMessage_isLoading_of_accepted (env : Env) (s : SessionState)
    (h : rejects s = false) : (sendMessage env s).state.isLoading = false := by
  have hl : s.isLoading = false := by
    simp [rejects] at h
    exact h.2
  have hi : jsTrim s.input ≠ "" := by
    simp [rejects] at h
    exact h.1
  cases hc : tryBlock env.apiKey (jsTrim s.input) with
  | error error =>
    rw [sendMessage_of_throw env s error hl hi hc]
    exact settle_isLoading _ _
  | ok call =>
    rw [sendMessage_of_call env s call hl hi hc]
    exact settle_isLoading _ _

theorem catchBlock_notConfigured :
    catchBlock (Thrown.value (JsMessage.str "API key not configured")) =
      Except.ok
        "Sorry, I encountered an error. Please add your Gemini API key to the .env file as VITE_GEMINI_API_KEY" :=
  rfl

theorem appends_of_missing (env : Env) (s : SessionState)
    (hload : s.isLoading = false) (hinput : jsTrim s.input ≠ "")
    (hkey : env.apiKey = none ∨ env.apiKey = some "" ∨
      env.apiKey = some "your_gemini_api_key_here") :
    Appends env s
      "Sorry, I encountered an error. Please add your Gemini API key to the .env file as VITE_GEMINI_API_KEY" := by
  unfold Appends
  rw [sendMessage_of_throw env s _ hload hinput (tryBlock_of_missing _ _ hkey),
    settle_caught _ _ _ catchBlock_notConfigured]
  simp [accept, acceptOn, setIsLoading, setMessages, setInput]

theorem appends_of_caught (env : Env) (s : SessionState) (call : Call) (error : Thrown)
    (text : String) (hload : s.isLoading = false) (hinput : jsTrim s.input ≠ "")
    (hcall : tryBlock env.apiKey (jsTrim s.input) = Except.ok call)
    (hgen : env.generate call = Except.error error)
    (hcatch : catchBlock error = Except.ok text) : Appends env s text := by
  unfold Appends
  rw [sendMessage_of_call env s call hload hinput hcall, hgen, settle_caught _ error text hcatch]
  simp [accept, acceptOn, setIsLoading, setMessages, setInput]

/-- Every failure the `catch` block gets through, thrown by the credential
check or by the awaited call, is turned into one assistant entry: the state
after the run is the old transcript, the user entry and the entry with the
mapped text, with the input cleared and the flag lowered, and the promise is
fulfilled. -/
theorem sendMessage_failure_caught (env : Env) (s : SessionState) (error : Thrown)
    (text : String)
    (hload : s.isLoading = false) (hinput : jsTrim s.input ≠ "")
    (hfail : tryBlock env.apiKey (jsTrim s.input) = Except.error error ∨
      ∃ call, tryBlock env.apiKey (jsTrim s.input) = Except.ok call ∧
        env.generate call = Except.error error)
    (hcatch : catchBlock error = Except.ok text) :
    (sendMessage env s).state =
        { isOpen := s.isOpen
          messages := s.messages ++
            [{ role := Role.user, content := jsTrim s.input },
             { role := Role.assistant, content := text }]
          input := ""
          isLoading := false } ∧
      (sendMessage env s).completion = Completion.normal := by
  rcases hfail with hthrow | ⟨call, hcall, hgen⟩
  · rw [sendMessage_of_throw env s error hload hinput hthrow, settle_caught _ error text hcatch]
    simp [accept, acceptOn, setIsLoading, setMessages, setInput]
  · rw [sendMessage_of_call env s call hload hinput hcall, hgen,
      settle_caught _ error text hcatch]
    simp [accept, acceptOn, setIsLoading, setMessages, setInput]

theorem catchBlock_invalid (m : String) (h : jsIncludes m "API_KEY_INVALID" = true) :
    catchBlock (Thrown.value (JsMessage.str m)) =
      Except.ok
        "Sorry, I encountered an error. Your API key appears to be invalid. Please check your Gemini API key." := by
  have hm : m ≠ "API key not configured" := by
    intro hm
    subst hm
    revert h
    decide
  simp only [catchBlock, hm, h, if_true, if_false]
  rfl

theorem catchBlock_quota (m : String) (h1 : jsIncludes m "API_KEY_INVALID" = false)
    (h2 : jsIncludes m "quota" = true) :
    catchBlock (Thrown.value (JsMessage.str m)) =
      Except.ok
        "Sorry, I encountered an error. API quota exceeded. Please check your Gemini API usage." := by
  have hm : m ≠ "API key not configured" := by
    intro hm
    subst hm
    revert h2
    decide
  simp only [catchBlock, hm, h1, h2, if_true, if_false]
  simp

theorem catchBlock_generic (m : String) (h1 : jsIncludes m "API_KEY_INVALID" = false)
    (h2 : jsIncludes m "quota" = false) (h3 : m ≠ "") (h4 : m ≠ "API key not configured") :
    catchBlock (Thrown.value (JsMessage.str m)) =
      Except.ok ("Sorry, I encountered an error. Error: " ++ m ++ ". Please try again.") := by
  simp only [catchBlock, h1, h2, h3, h4, if_true, if_false]
  simp [String.append_assoc]
  rfl

theorem catchBlock_empty :
    catchBlock (Thrown.value (JsMessage.str "")) =
      Except.ok "Sorry, I encountered an error. Error: Unknown error. Please try again." := rfl

theorem catchBlock_absent :
    catchBlock (Thrown.value JsMessage.absent) =
      Except.ok "Sorry, I encountered an error. Error: Unknown error. Please try again." := rfl

theorem prompt_data (userMessage : String) :
    (prompt userMessage).data = promptHead.data ++ userMessage.data ++ promptTail.data := by
  simp [prompt]

theorem prompt_injective (u v : String) (h : prompt u = prompt v) : u = v := by
  have hd := congrArg String.data h
  rw [prompt_data, prompt_data] at hd
  have := List.append_cancel_left (List.append_cancel_right hd)
  exact String.ext this

/-! ## The claims -/

/-- C10: the initial session state has a transcript of exactly one entry, an
assistant-role welcome message, an empty pending input, no request in flight
and a closed panel. -/
theorem initialState_spec :
    initialState.messages =
        [{ role := Role.assistant
           content := "Hi! I\x27m your resume building assistant. How can I help you today?" }] ∧
      initialState.messages.length = 1 ∧
      initialState.input = "" ∧
      initialState.isLoading = false ∧
      initialState.isOpen = false ∧
      initialPanel.ui = initialState ∧
      initialPanel.rendered = initialState ∧
      initialPanel.inFlight = [] :=
  ⟨rfl, rfl, rfl, rfl, rfl, rfl, rfl, rfl⟩

/-- C4: when the trimmed pending input the handler holds is empty,
`sendMessage` is a silent no-op whatever the state: the whole session state
(transcript, pending input, both flags) is unchanged, so a lowered in-flight
flag stays lowered, no outbound call is made, nothing is logged, the returned
promise is fulfilled, and in the mounted panel neither the cells nor the
awaited requests change. -/
theorem sendMessage_blank_noop (env : Env) (p : Panel) (h : jsTrim p.rendered.input = "") :
    (sendMessage env p.rendered).state = p.rendered ∧
      (sendMessage env p.rendered).calls = [] ∧
      (sendMessage env p.rendered).completion = Completion.normal ∧
      (p.rendered.isLoading = false → (sendMessage env p.rendered).state.isLoading = false) ∧
      (sendMessage env p.rendered).logged = [] ∧
      step env.apiKey p Event.submit = p := by
  have hr := rejects_of_trim_empty p.rendered h
  refine ⟨?_, ?_, ?_, ?_, ?_, ?_⟩
  · rw [sendMessage_of_rejects env p.rendered hr]
  · rw [sendMessage_of_rejects env p.rendered hr]
  · rw [sendMessage_of_rejects env p.rendered hr]
  · intro hl
    rw [sendMessage_of_rejects env p.rendered hr]
    exact hl
  · rw [sendMessage_of_rejects env p.rendered hr]
  · simp [step, sendMessageStartOn_of_rejects env.apiKey p.rendered p.ui hr]

theorem sendMessage_blank_noop_witness :
    jsTrim ({ ui := setInput " \t \n" initialState, rendered := setInput " \t \n" initialState
              inFlight := [] } : Panel).rendered.input = "" ∧
      (sendMessage { apiKey := some "key", generate := fun _ => Except.ok "reply" }
        (setInput " \t \n" initialState)).state = setInput " \t \n" initialState ∧
      (sendMessage { apiKey := some "key", generate := fun _ => Except.ok "reply" }
        (setInput " \t \n" initialState)).calls = [] :=
  ⟨by decide,
   (sendMessage_blank_noop { apiKey := some "key", generate := fun _ => Except.ok "reply" }
      { ui := setInput " \t \n" initialState, rendered := setInput " \t \n" initialState
        inFlight := [] } (by decide)).1,
   (sendMessage_blank_noop { apiKey := some "key", generate := fun _ => Except.ok "reply" }
      { ui := setInput " \t \n" initialState, rendered := setInput " \t \n" initialState
        inFlight := [] } (by decide)).2.1⟩

/-- C1: from a state with no request in flight and a pending input whose
trimmed form `t` is not empty, when the generation capability is called and
returns the text `r`, `sendMessage` ends with the old transcript followed by
the user entry `t` and then the assistant entry `r`, an empty pending input, the
in-flight flag lowered, the panel as open as before, exactly that one call
made, nothing logged, and its promise fulfilled. -/
theorem sendMessage_success (env : Env) (s : SessionState) (call : Call) (r : String)
    (hload : s.isLoading = false) (hinput : jsTrim s.input ≠ "")
    (hcall : tryBlock env.apiKey (jsTrim s.input) = Except.ok call)
    (hgen : env.generate call = Except.ok r) :
    sendMessage env s =
      { state :=
          { isOpen := s.isOpen
            messages := s.messages ++
              [{ role := Role.user, content := jsTrim s.input },
               { role := Role.assistant, content := r }]
            input := ""
            isLoading := false }
        calls := [call]
        completion := Completion.normal
        defaultPrevented := true
        logged := [] } := by
  rw [sendMessage_of_call env s call hload hinput hcall, hgen]
  simp [settle, accept, acceptOn, consoleError, setIsLoading, setMessages, setInput]

theorem sendMessage_success_witness :
    (sendMessage { apiKey := some "valid-key", generate := fun _ => Except.ok "List skills by relevance." }
        (setInput "How do I list skills?" initialState)).state.messages =
      initialState.messages ++
        [{ role := Role.user, content := "How do I list skills?" },
         { role := Role.assistant, content := "List skills by relevance." }] :=
  congrArg (fun x => x.state.messages)
    (sendMessage_success
      { apiKey := some "valid-key", generate := fun _ => Except.ok "List skills by relevance." }
      (setInput "How do I list skills?" initialState)
      { apiKey := "valid-key", model := "gemini-2.5-pro",
        prompt := prompt "How do I list skills?" }
      "List skills by relevance." (by decide) (by decide) rfl rfl)

/-- C5, counterexample: two submits handled with no render in between.  After
the first the in-flight flag of the component is raised and one request is
awaited, yet the handler still holds the lowered flag of its render: the second
submit is accepted, a second request is issued, and once both settle the
transcript holds two user entries and two assistant entries. -/
theorem sendMessage_inflight_counterexample :
    (runEvents (some "key")
        { ui := setInput "hello" initialState, rendered := setInput "hello" initialState
          inFlight := [] }
        [Event.submit]).ui.isLoading = true ∧
      (runEvents (some "key")
        { ui := setInput "hello" initialState, rendered := setInput "hello" initialState
          inFlight := [] }
        [Event.submit, Event.submit]).inFlight =
        [{ apiKey := "key", model := "gemini-2.5-pro", prompt := prompt "hello" },
         { apiKey := "key", model := "gemini-2.5-pro", prompt := prompt "hello" }] ∧
      (runEvents (some "key")
        { ui := setInput "hello" initialState, rendered := setInput "hello" initialState
          inFlight := [] }
        [Event.submit, Event.submit, Event.settled (Except.ok "one"),
          Event.settled (Except.ok "two")]).ui.messages =
        initialState.messages ++
          [{ role := Role.user, content := "hello" },
           { role := Role.user, content := "hello" },
           { role := Role.assistant, content := "one" },
           { role := Role.assistant, content := "two" }] := by
  refine ⟨?_, ?_, ?_⟩ <;> rfl

/-- C5, amended: whenever the handler holds a raised in-flight flag, that is
in every render made while a request is in flight, `sendMessage` is a no-op
whatever the pending input: the session state (transcript, pending input) is
unchanged, no call is issued, nothing is logged, and in the mounted panel
neither the cells nor the awaited requests change.  Consequently, as long as
the component re-renders after a submit before the next event is handled, at
most one request is awaited in every state the mounted panel reaches, and a
second submit attempt made while the first request is pending (even after
typing something new) leaves one user/assistant pair in the final transcript. -/
theorem sendMessage_inflight_noop (env : Env) (p : Panel) (h : p.rendered.isLoading = true) :
    sendMessage env p.rendered =
        { state := p.rendered, calls := [], completion := Completion.normal
          defaultPrevented := true, logged := [] } ∧
      step env.apiKey p Event.submit = p ∧
      (∀ evs : List Event,
        (runEvents env.apiKey initialPanel (renderAfterSubmit evs)).inFlight.length ≤ 1) ∧
      (∀ (s0 : SessionState) (call : Call) (text reply : String) (r : Outcome),
        s0.isLoading = false → jsTrim s0.input ≠ "" →
        tryBlock env.apiKey (jsTrim s0.input) = Except.ok call →
        (runEvents env.apiKey { ui := s0, rendered := s0, inFlight := [] }
            [Event.submit, Event.render, Event.change text, Event.render, Event.submit,
              Event.settled r]).ui.messages =
          (runEvents env.apiKey { ui := s0, rendered := s0, inFlight := [] }
            [Event.submit, Event.settled r]).ui.messages ∧
        (runEvents env.apiKey { ui := s0, rendered := s0, inFlight := [] }
            [Event.submit, Event.render, Event.change text, Event.render, Event.submit,
              Event.settled (Except.ok reply)]).ui.messages =
          s0.messages ++
            [{ role := Role.user, content := jsTrim s0.input },
             { role := Role.assistant, content := reply }] ∧
        (runEvents env.apiKey { ui := s0, rendered := s0, inFlight := [] }
            [Event.submit, Event.render, Event.change text, Event.render, Event.submit,
              Event.settled r]).inFlight = []) := by
  refine ⟨sendMessage_of_rejects env p.rendered (rejects_of_loading p.rendered h),
    step_submit_of_loading env.apiKey p h, ?_, ?_⟩
  · intro evs
    rcases runEvents_coherent env.apiKey evs initialPanel initialPanel_coherent
      initialPanel_seesLoading with ⟨_, h2⟩ | ⟨_, h2⟩
    · exact le_of_eq h2
    · simp [h2]
  · intro s0 call text reply r hl hi hc
    have hs := sendMessageStartOn_of_call env.apiKey s0 s0 call (rejects_eq_false s0 hi hl) hc
    have hrej : sendMessageStartOn env.apiKey (setInput text (acceptOn s0 s0))
        (setInput text (acceptOn s0 s0)) = Started.rejected :=
      sendMessageStartOn_of_rejects _ _ _ (rejects_of_loading _ rfl)
    refine ⟨?_, ?_, ?_⟩
    · simp only [runEvents, List.foldl, step, hs, hrej, List.nil_append]
      cases r with
      | ok t => rfl
      | error error =>
        cases hcb : catchBlock error with
        | ok m => rw [settle_caught _ error m hcb, settle_caught _ error m hcb]; rfl
        | error e => rw [settle_uncaught _ error e hcb, settle_uncaught _ error e hcb]; rfl
    · simp only [runEvents, List.foldl, step, hs, hrej, List.nil_append]
      simp [settle, acceptOn, setInput, setIsLoading, setMessages]
    · simp only [runEvents, List.foldl, step, hs, hrej, List.nil_append]

theorem sendMessage_inflight_noop_witness :
    ({ ui := { isOpen := true
               messages := initialState.messages ++ [{ role := Role.user, content := "first" }]
               input := "second"
               isLoading := true }
       rendered := { isOpen := true
                     messages := initialState.messages ++
                       [{ role := Role.user, content := "first" }]
                     input := "second"
                     isLoading := true }
       inFlight := [{ apiKey := "key", model := "gemini-2.5-pro", prompt := prompt "first" }] }
      : Panel).rendered.isLoading = true ∧
      sendMessage { apiKey := some "key", generate := fun _ => Except.ok "reply" }
          { isOpen := true
            messages := initialState.messages ++ [{ role := Role.user, content := "first" }]
            input := "second"
            isLoading := true } =
        { state :=
            { isOpen := true
              messages := initialState.messages ++ [{ role := Role.user, content := "first" }]
              input := "second"
              isLoading := true }
          calls := []
          completion := Completion.normal
          defaultPrevented := true
          logged := [] } :=
  ⟨rfl,
   (sendMessage_inflight_noop { apiKey := some "key", generate := fun _ => Except.ok "reply" }
      { ui := { isOpen := true
                messages := initialState.messages ++ [{ role := Role.user, content := "first" }]
                input := "second"
                isLoading := true }
        rendered := { isOpen := true
                      messages := initialState.messages ++
                        [{ role := Role.user, content := "first" }]
                      input := "second"
                      isLoading := true }
        inFlight := [{ apiKey := "key", model := "gemini-2.5-pro", prompt := prompt "first" }] }
      rfl).1⟩

/-- C9: the transcript is append-only.  For every event of the panel (a
render, opening, closing, typing, a submit in each of its outcomes and whatever
the handler captured, the settlement of an awaited request), for every sequence
of events and for a complete run of `sendMessage`, the transcript before is an
initial segment of the transcript after, so no existing entry is edited,
reordered or deleted; rendering, opening, closing and typing leave the
transcript identical. -/
theorem transcript_append_only (env : Env) (p : Panel) (ev : Event) (evs : List Event)
    (text : String) :
    (∃ added, (step env.apiKey p ev).ui.messages = p.ui.messages ++ added) ∧
      (∃ added, (runEvents env.apiKey p evs).ui.messages = p.ui.messages ++ added) ∧
      (∃ added, (sendMessage env p.ui).state.messages = p.ui.messages ++ added) ∧
      (step env.apiKey p Event.openChat).ui.messages = p.ui.messages ∧
      (step env.apiKey p Event.closeChat).ui.messages = p.ui.messages ∧
      (step env.apiKey p (Event.change text)).ui.messages = p.ui.messages ∧
      (setIsOpen true p.ui).messages = p.ui.messages ∧
      (setIsOpen false p.ui).messages = p.ui.messages ∧
      (step env.apiKey p Event.render).ui.messages = p.ui.messages :=
  ⟨step_messages env.apiKey p ev, runEvents_messages env.apiKey evs p,
    sendMessage_messages env p.ui, rfl, rfl, rfl, rfl, rfl, rfl⟩

/-- C6, counterexample: an accepted submission with no credential configured
makes no outbound call at all, and it does act outside the session state: it
cancels the default action of the submit event and passes the thrown error to
`console.error`. -/
theorem sendMessage_calls_counterexample :
    (setInput "test" initialState).isLoading = false ∧
      jsTrim (setInput "test" initialState).input ≠ "" ∧
      (sendMessage { apiKey := none, generate := fun _ => Except.ok "reply" }
        (setInput "test" initialState)).calls = [] ∧
      (sendMessage { apiKey := none, generate := fun _ => Except.ok "reply" }
        (setInput "test" initialState)).calls.length ≠ 1 ∧
      (sendMessage { apiKey := none, generate := fun _ => Except.ok "reply" }
        (setInput "test" initialState)).defaultPrevented = true ∧
      (sendMessage { apiKey := none, generate := fun _ => Except.ok "reply" }
        (setInput "test" initialState)).logged =
        [Thrown.value (JsMessage.str "API key not configured")] := by
  refine ⟨rfl, by decide, ?_, ?_, ?_, ?_⟩ <;> decide

/-- C6, amended: an accepted invocation of `sendMessage` makes exactly one
outbound call, with the configured credential, the model name and the prompt
built from the trimmed input, when the credential is neither empty nor the
placeholder, whatever the call then produces; it makes none when the credential
is undefined, empty or the placeholder; in every case it makes at most one.
Outside the session state it does exactly this besides: it cancels the default
action of the submit event, and it passes the thrown value to `console.error`
once when the generation step fails (a thrown value of the call, or the
`API key not configured` error of the credential check) and logs nothing when
the call succeeds. -/
theorem sendMessage_calls (env : Env) (s : SessionState)
    (hload : s.isLoading = false) (hinput : jsTrim s.input ≠ "") :
    (∀ k, env.apiKey = some k → k ≠ "" → k ≠ "your_gemini_api_key_here" →
        (sendMessage env s).calls =
            [{ apiKey := k, model := "gemini-2.5-pro", prompt := prompt (jsTrim s.input) }] ∧
          (∀ text,
            env.generate
                { apiKey := k, model := "gemini-2.5-pro", prompt := prompt (jsTrim s.input) } =
              Except.ok text →
            (sendMessage env s).logged = []) ∧
          (∀ error,
            env.generate
                { apiKey := k, model := "gemini-2.5-pro", prompt := prompt (jsTrim s.input) } =
              Except.error error →
            (sendMessage env s).logged = [error])) ∧
      ((env.apiKey = none ∨ env.apiKey = some "" ∨
          env.apiKey = some "your_gemini_api_key_here") →
        (sendMessage env s).calls = [] ∧
          (sendMessage env s).logged =
            [Thrown.value (JsMessage.str "API key not configured")]) ∧
      (sendMessage env s).calls.length ≤ 1 ∧
      (sendMessage env s).defaultPrevented = true ∧
      (sendMessage env s).logged.length ≤ 1 := by
  refine ⟨?_, ?_, ?_, ?_, ?_⟩
  · intro k hk h1 h2
    have hc := tryBlock_of_configured k (jsTrim s.input) h1 h2
    rw [← hk] at hc
    rw [sendMessage_of_call env s _ hload hinput hc]
    refine ⟨rfl, ?_, ?_⟩
    · intro text hg
      simp [hg, consoleError]
    · intro error hg
      simp [hg, consoleError]
  · intro hk
    rw [sendMessage_of_throw env s _ hload hinput (tryBlock_of_missing _ _ hk)]
    exact ⟨rfl, rfl⟩
  · cases hc : tryBlock env.apiKey (jsTrim s.input) with
    | error error => rw [sendMessage_of_throw env s error hload hinput hc]; simp
    | ok call => rw [sendMessage_of_call env s call hload hinput hc]; simp
  · cases hc : tryBlock env.apiKey (jsTrim s.input) with
    | error error => rw [sendMessage_of_throw env s error hload hinput hc]
    | ok call => rw [sendMessage_of_call env s call hload hinput hc]
  · cases hc : tryBlock env.apiKey (jsTrim s.input) with
    | error error => rw [sendMessage_of_throw env s error hload hinput hc]; simp
    | ok call =>
      rw [sendMessage_of_call env s call hload hinput hc]
      cases hg : env.generate call <;> simp [consoleError]

theorem sendMessage_calls_witness :
    (setInput "test" initialState).isLoading = false ∧
      jsTrim (setInput "test" initialState).input ≠ "" ∧
      (sendMessage { apiKey := some "key", generate := fun _ => Except.error Thrown.nullish }
          (setInput "test" initialState)).calls =
        [{ apiKey := "key", model := "gemini-2.5-pro", prompt := prompt "test" }] ∧
      (sendMessage { apiKey := some "key", generate := fun _ => Except.error Thrown.nullish }
          (setInput "test" initialState)).logged = [Thrown.nullish] ∧
      (sendMessage { apiKey := some "key", generate := fun _ => Except.error Thrown.nullish }
          (setInput "test" initialState)).defaultPrevented = true :=
  ⟨rfl, by decide,
   ((sendMessage_calls { apiKey := some "key", generate := fun _ => Except.error Thrown.nullish }
      (setInput "test" initialState) rfl (by decide)).1 "key" rfl (by decide) (by decide)).1,
   ((sendMessage_calls { apiKey := some "key", generate := fun _ => Except.error Thrown.nullish }
      (setInput "test" initialState) rfl (by decide)).1 "key" rfl (by decide)
      (by decide)).2.2 Thrown.nullish rfl,
   (sendMessage_calls { apiKey := some "key", generate := fun _ => Except.error Thrown.nullish }
      (setInput "test" initialState) rfl (by decide)).2.2.2.1⟩

/-- C8: for an accepted submission with a configured credential, the one
request handed to the SDK carries the prompt `promptHead ++ t ++ promptTail`,
where `t` is the user text of the submission (the text also put in the
transcript) and the two constants are the pieces of the template: the head
names the resume-builder assistant and ends with `The user is asking: "`, the
tail starts with the closing `"` and ends with the 150-word limit.  The
characters of `t` appear in the prompt unchanged, in order, between the two
constants, and different texts give different prompts. -/
theorem sendMessage_prompt (env : Env) (s : SessionState) (k : String)
    (hload : s.isLoading = false) (hinput : jsTrim s.input ≠ "")
    (hkey : env.apiKey = some k) (h1 : k ≠ "") (h2 : k ≠ "your_gemini_api_key_here") :
    (sendMessage env s).calls =
        [{ apiKey := k, model := "gemini-2.5-pro"
           prompt := promptHead ++ jsTrim s.input ++ promptTail }] ∧
      (promptHead ++ jsTrim s.input ++ promptTail).data =
        promptHead.data ++ (jsTrim s.input).data ++ promptTail.data ∧
      (∀ other : String,
        promptHead ++ other ++ promptTail = promptHead ++ jsTrim s.input ++ promptTail →
          other = jsTrim s.input) ∧
      jsIncludes promptHead "helpful assistant for a resume builder application" = true ∧
      "The user is asking: \"".data <:+ promptHead.data ∧
      "\"".data <+: promptTail.data ∧
      "Keep your response under 150 words.".data <:+ promptTail.data := by
  refine ⟨?_, prompt_data _, fun other h => prompt_injective _ _ h, by decide, ?_, ?_, ?_⟩
  · have hc := tryBlock_of_configured k (jsTrim s.input) h1 h2
    rw [← hkey] at hc
    rw [sendMessage_of_call env s _ hload hinput hc]
    rfl
  · exact ⟨"You are a helpful assistant for a resume builder application. \n      ".data, rfl⟩
  · exact ⟨"\n      \n      Please provide a concise, helpful response related to resume building, job applications, or career advice. \n      Keep your response under 150 words.".data, rfl⟩
  · exact ⟨"\"\n      \n      Please provide a concise, helpful response related to resume building, job applications, or career advice. \n      ".data, rfl⟩

theorem sendMessage_prompt_witness :
    (sendMessage { apiKey := some "key", generate := fun _ => Except.ok "reply" }
        (setInput "  Is \"C++\" a skill? <b>\\n</b> " initialState)).calls =
      [{ apiKey := "key", model := "gemini-2.5-pro"
         prompt := promptHead ++ "Is \"C++\" a skill? <b>\\n</b>" ++ promptTail }] :=
  (sendMessage_prompt { apiKey := some "key", generate := fun _ => Except.ok "reply" }
    (setInput "  Is \"C++\" a skill? <b>\\n</b> " initialState) "key" rfl (by decide) rfl
    (by decide) (by decide)).1

/-- C3, counterexample: with a configured credential, a failure whose message
is empty gets the text `Error: Unknown error.` and not the raw (empty) error
text, and a failure whose message is `API key not configured` gets the
credential-missing guidance and not the generic text. -/
theorem errorText_counterexample :
    (sendMessage
        { apiKey := some "key"
          generate := fun _ => Except.error (Thrown.value (JsMessage.str "")) }
        (setInput "test" initialState)).state.messages =
      initialState.messages ++
        [{ role := Role.user, content := "test" },
         { role := Role.assistant
           content := "Sorry, I encountered an error. Error: Unknown error. Please try again." }] ∧
      claimedErrorText (some "key") "" =
        "Sorry, I encountered an error. Error: . Please try again." ∧
      ¬ Appends
        { apiKey := some "key"
          generate := fun _ => Except.error (Thrown.value (JsMessage.str "")) }
        (setInput "test" initialState) (claimedErrorText (some "key") "") ∧
      (sendMessage
        { apiKey := some "key"
          generate := fun _ =>
            Except.error (Thrown.value (JsMessage.str "API key not configured")) }
        (setInput "test" initialState)).state.messages =
      initialState.messages ++
        [{ role := Role.user, content := "test" },
         { role := Role.assistant
           content := "Sorry, I encountered an error. Please add your Gemini API key to the .env file as VITE_GEMINI_API_KEY" }] ∧
      claimedErrorText (some "key") "API key not configured" =
        "Sorry, I encountered an error. Error: API key not configured. Please try again." ∧
      ¬ Appends
        { apiKey := some "key"
          generate := fun _ =>
            Except.error (Thrown.value (JsMessage.str "API key not configured")) }
        (setInput "test" initialState)
        (claimedErrorText (some "key") "API key not configured") := by
  refine ⟨by decide, by decide, ?_, by decide, by decide, ?_⟩
  · unfold Appends
    decide
  · unfold Appends
    decide

/-- C3, amended: the error text appended by an accepted `sendMessage` is chosen
in this order.  An undefined, empty or placeholder credential gives the
guidance naming `VITE_GEMINI_API_KEY`.  With a configured credential and a
failure whose message is a string `m`: `m` equal to `API key not configured`
gives that same guidance; otherwise `m` containing `API_KEY_INVALID` gives the
invalid-key guidance, also when `m` contains `quota`; otherwise `m` containing
`quota` gives the quota guidance; otherwise a non-empty `m` gives
`Sorry, I encountered an error. Error: m. Please try again.`; an empty `m`, or
a failure with no message, gives the same text with `Unknown error` for `m`. -/
theorem sendMessage_errorText (env : Env) (s : SessionState)
    (hload : s.isLoading = false) (hinput : jsTrim s.input ≠ "") :
    ((env.apiKey = none ∨ env.apiKey = some "" ∨
          env.apiKey = some "your_gemini_api_key_here") →
        Appends env s
          "Sorry, I encountered an error. Please add your Gemini API key to the .env file as VITE_GEMINI_API_KEY") ∧
      (∀ (call : Call) (m : String),
        tryBlock env.apiKey (jsTrim s.input) = Except.ok call →
        env.generate call = Except.error (Thrown.value (JsMessage.str m)) →
        (m = "API key not configured" →
          Appends env s
            "Sorry, I encountered an error. Please add your Gemini API key to the .env file as VITE_GEMINI_API_KEY") ∧
        (jsIncludes m "API_KEY_INVALID" = true →
          Appends env s
            "Sorry, I encountered an error. Your API key appears to be invalid. Please check your Gemini API key.") ∧
        (jsIncludes m "API_KEY_INVALID" = false → jsIncludes m "quota" = true →
          Appends env s
            "Sorry, I encountered an error. API quota exceeded. Please check your Gemini API usage.") ∧
        (jsIncludes m "API_KEY_INVALID" = false → jsIncludes m "quota" = false →
          m ≠ "" → m ≠ "API key not configured" →
          Appends env s
            ("Sorry, I encountered an error. Error: " ++ m ++ ". Please try again.")) ∧
        (m = "" →
          Appends env s
            "Sorry, I encountered an error. Error: Unknown error. Please try again.")) ∧
      (∀ call : Call,
        tryBlock env.apiKey (jsTrim s.input) = Except.ok call →
        env.generate call = Except.error (Thrown.value JsMessage.absent) →
        Appends env s
          "Sorry, I encountered an error. Error: Unknown error. Please try again.") := by
  refine ⟨appends_of_missing env s hload hinput, ?_, ?_⟩
  · intro call m hcall hgen
    refine ⟨?_, ?_, ?_, ?_, ?_⟩
    · intro hm
      subst hm
      exact appends_of_caught env s call _ _ hload hinput hcall hgen catchBlock_notConfigured
    · intro h1
      exact appends_of_caught env s call _ _ hload hinput hcall hgen (catchBlock_invalid m h1)
    · intro h1 h2
      exact appends_of_caught env s call _ _ hload hinput hcall hgen (catchBlock_quota m h1 h2)
    · intro h1 h2 h3 h4
      exact appends_of_caught env s call _ _ hload hinput hcall hgen
        (catchBlock_generic m h1 h2 h3 h4)
    · intro hm
      subst hm
      exact appends_of_caught env s call _ _ hload hinput hcall hgen catchBlock_empty
  · intro call hcall hgen
    exact appends_of_caught env s call _ _ hload hinput hcall hgen catchBlock_absent

theorem sendMessage_errorText_witness :
    (setInput "test" initialState).isLoading = false ∧
      jsTrim (setInput "test" initialState).input ≠ "" ∧
      Appends
        { apiKey := some "key"
          generate := fun _ =>
            Except.error (Thrown.value
              (JsMessage.str "API_KEY_INVALID: quota project not found")) }
        (setInput "test" initialState)
        "Sorry, I encountered an error. Your API key appears to be invalid. Please check your Gemini API key." ∧
      Appends { apiKey := none, generate := fun _ => Except.ok "reply" }
        (setInput "test" initialState)
        "Sorry, I encountered an error. Please add your Gemini API key to the .env file as VITE_GEMINI_API_KEY" :=
  ⟨rfl, by decide,
   ((sendMessage_errorText
      { apiKey := some "key"
        generate := fun _ =>
          Except.error (Thrown.value
            (JsMessage.str "API_KEY_INVALID: quota project not found")) }
      (setInput "test" initialState) rfl (by decide)).2.1
      { apiKey := "key", model := "gemini-2.5-pro", prompt := prompt "test" }
      "API_KEY_INVALID: quota project not found" rfl rfl).2.1 (by decide),
   (sendMessage_errorText { apiKey := none, generate := fun _ => Except.ok "reply" }
      (setInput "test" initialState) rfl (by decide)).1 (Or.inl rfl)⟩

/-- C2, the run at the failing input: the credential is configured and the
awaited call rejects with `undefined`.  The user entry is appended and the flag
is lowered, but no assistant entry follows: the transcript grows by one entry
only. -/
theorem sendMessage_nullish_no_entry :
    (sendMessage { apiKey := some "key", generate := fun _ => Except.error Thrown.nullish }
        (setInput "test" initialState)).state =
      { isOpen := false
        messages := initialState.messages ++ [{ role := Role.user, content := "test" }]
        input := ""
        isLoading := false } ∧
      ∀ text : String,
        ¬ Appends { apiKey := some "key", generate := fun _ => Except.error Thrown.nullish }
          (setInput "test" initialState) text := by
  refine ⟨by decide, ?_⟩
  intro text h
  have hrun :
      (sendMessage { apiKey := some "key", generate := fun _ => Except.error Thrown.nullish }
        (setInput "test" initialState)).state.messages =
        initialState.messages ++ [{ role := Role.user, content := "test" }] := by
    decide
  unfold Appends at h
  rw [hrun] at h
  have hlen := congrArg List.length h
  simp [setInput, initialState] at hlen

/-- C7, the run at the failing input: when the awaited call rejects with
`undefined` (or with a value whose message is a number), evaluating the
conditions of the `catch` block raises a `TypeError`, so the promise returned by
`sendMessage` is rejected instead of fulfilled. -/
theorem sendMessage_propagates_typeError :
    (sendMessage { apiKey := some "key", generate := fun _ => Except.error Thrown.nullish }
        (setInput "test" initialState)).completion =
      Completion.threw JsTypeError.readPropertyOfNullish ∧
      (sendMessage
        { apiKey := some "key"
          generate := fun _ => Except.error (Thrown.value JsMessage.nonString) }
        (setInput "test" initialState)).completion =
      Completion.threw JsTypeError.notAFunction := by
  constructor <;> decide

end ChatBot
